import Mathlib

/-!
Shallow embedding of the rusty-shark packet-dissection core: the value tree,
the dissection and navigation error taxonomies, the endianness-aware integer
decoders, the raw / TCP / IP / Ethernet dissectors and the textual renderer,
together with theorems about the behaviour of those definitions.

Byte buffers are modelled as `List Nat`, each element standing for one `u8`
(so an element is below 256 whenever it comes from an actual packet).
Rust slices `data[i..j]` become `(data.drop i).take (j - i)`, an index
`data[i]` that the source has already bounds-checked becomes `data.getD i 0`,
and fallible Rust `Result` values become `Except`.
-/

/-- Dissection-time errors, from `enum DissectError` in lib.rs:
`Underflow { expected, have, message }` and `InvalidData(message)`. -/
inductive DissectError where
  | Underflow (expected : Nat) (have_ : Nat) (message : String)
  | InvalidData (message : String)
deriving Repr, DecidableEq

/-- Rendering of a dissection error, from `impl fmt::Display for DissectError`
in lib.rs. -/
def DissectError.display : DissectError → String
  | .Underflow expected have_ message =>
      "underflow (expected " ++ toString expected ++ ", have " ++ toString have_ ++ "): "
        ++ message
  | .InvalidData msg => "invalid data: " ++ msg

/-- Debug form of a dissection error, as Rust `derive(Debug)` prints it. -/
def DissectError.debug : DissectError → String
  | .Underflow expected have_ message =>
      "Underflow \x7b expected: " ++ toString expected ++ ", have: " ++ toString have_
        ++ ", message: \"" ++ message ++ "\" \x7d"
  | .InvalidData msg => "InvalidData(\"" ++ msg ++ "\")"

/-- Little- or big-endian integer representations, from `enum Endianness` in lib.rs. -/
inductive Endianness where
  | BigEndian
  | LittleEndian

/-- Value of a byte window read as a big-endian unsigned integer
(what `byteorder::BigEndian` reads produce). -/
def readBE (l : List Nat) : Nat := l.foldl (fun a b => a * 256 + b) 0

/-- Value of a byte window read as a little-endian unsigned integer. -/
def readLE (l : List Nat) : Nat := readBE l.reverse

/-- Reinterpretation of a `w`-bit unsigned value as a two's-complement signed
integer, which is what reading with `read_i16`/`read_i32`/`read_i64` yields. -/
def toSigned (w : Nat) (v : Nat) : Int :=
  if v < 2 ^ (w - 1) then (v : Int) else (v : Int) - 2 ^ w

/-- Parse a signed integer of a given endianness from a byte buffer;
`fn signed` in lib.rs.  The 1-byte arm mirrors the source expression
`buffer[0] as i64`, which widens the `u8` without sign extension; the
wider arms read an i16/i32/i64 and sign-extend it into the `i64`. -/
def signed (buffer : List Nat) (endianness : Endianness) : Except DissectError Int :=
  match buffer, endianness with
  | [b], _ => .ok (Int.ofNat b)
  | [b0, b1], .BigEndian => .ok (toSigned 16 (readBE [b0, b1]))
  | [b0, b1], .LittleEndian => .ok (toSigned 16 (readLE [b0, b1]))
  | [b0, b1, b2, b3], .BigEndian => .ok (toSigned 32 (readBE [b0, b1, b2, b3]))
  | [b0, b1, b2, b3], .LittleEndian => .ok (toSigned 32 (readLE [b0, b1, b2, b3]))
  | [b0, b1, b2, b3, b4, b5, b6, b7], .BigEndian =>
      .ok (toSigned 64 (readBE [b0, b1, b2, b3, b4, b5, b6, b7]))
  | [b0, b1, b2, b3, b4, b5, b6, b7], .LittleEndian =>
      .ok (toSigned 64 (readLE [b0, b1, b2, b3, b4, b5, b6, b7]))
  | l, _ => .error (.InvalidData ("Invalid integer size: " ++ toString l.length ++ " B"))

/-- Parse an unsigned integer of a given endianness from a byte buffer;
`fn unsigned` in lib.rs. -/
def unsigned (buffer : List Nat) (endianness : Endianness) : Except DissectError Nat :=
  match buffer, endianness with
  | [b], _ => .ok b
  | [b0, b1], .BigEndian => .ok (readBE [b0, b1])
  | [b0, b1], .LittleEndian => .ok (readLE [b0, b1])
  | [b0, b1, b2, b3], .BigEndian => .ok (readBE [b0, b1, b2, b3])
  | [b0, b1, b2, b3], .LittleEndian => .ok (readLE [b0, b1, b2, b3])
  | [b0, b1, b2, b3, b4, b5, b6, b7], .BigEndian =>
      .ok (readBE [b0, b1, b2, b3, b4, b5, b6, b7])
  | [b0, b1, b2, b3, b4, b5, b6, b7], .LittleEndian =>
      .ok (readLE [b0, b1, b2, b3, b4, b5, b6, b7])
  | l, _ => .error (.InvalidData ("Invalid integer size: " ++ toString l.length ++ " B"))

/-- Model of Rust `.unwrap()` on a decoder result.  At every call site in the
dissectors the decoded window has length 2 or 4, so the error arm is
unreachable there. -/
def unwrapU (r : Except DissectError Nat) : Nat :=
  match r with
  | .ok v => v
  | .error _ => 0

/-- Lowercase hexadecimal digits of a number, as Rust `format!("{:x}", n)`
prints them. -/
def hexStr (n : Nat) : String := String.mk (Nat.toDigits 16 n)

/-- Two-digit zero-padded lowercase hexadecimal, as Rust `{:02x}`. -/
def hex2 (n : Nat) : String :=
  let s := hexStr n
  if s.length = 1 then "0" ++ s else s

/-- Whether an `Except` is a success. -/
def isOk {ε α : Type} : Except ε α → Bool
  | .ok _ => true
  | .error _ => false

/-!
The Ethernet and IP dissectors (ethernet.rs and ip/mod.rs) are written against
the revision of the library where an `Object` holds named *results*: each child
of a tree node is a `(name, Result<Val>)` pair, and `Bytes`/`Address` own their
byte vectors.  `OVal` models that value type; `Val`, further below, models the
value type of lib.rs and ip/tcp.rs where children are plain values and a
`Payload` node embeds a nested outcome.
-/

/-- Value tree of the revision that ethernet.rs and ip/mod.rs compile against:
object children are named dissection results. -/
inductive OVal where
  | Unsigned (n : Nat)
  | Symbol (s : String)
  | Bytes (bytes : List Nat)
  | Address (bytes : List Nat) (encoded : String)
  | Object (values : List (String × Except DissectError OVal))

/-- Dissector of last resort for the `OVal` tree: store raw bytes without
interpretation (`fn raw` in lib.rs, at the `OVal` revision of the tree where
an object child carries a result). -/
def raw0 (data : List Nat) : Except DissectError OVal :=
  .ok (.Object [("raw data", .ok (.Bytes data))])

/-- Dotted-decimal encoding of address bytes, from ip/mod.rs:
`source.iter().map(|b| b.to_string()).collect::<Vec<_>>().join(".")`. -/
def encodeAddr (bytes : List Nat) : String :=
  String.intercalate "." (bytes.map toString)

/-- IP dissector, `fn dissect` in ip/mod.rs.  Fields at their fixed offsets;
the protocol table matches every protocol number to `raw`
(`match protocol { _ => raw }` in the source), and the remainder handed to it
is always `data[20..]`. -/
def ip.dissect (data : List Nat) : Except DissectError OVal :=
  if data.length < 20 then
    .error (.Underflow 20 data.length "An IP packet must be at least 20 B")
  else
    let protocol := data.getD 9 0
    let dissect_pdu := fun (r : List Nat) => raw0 r
    .ok (.Object [
      ("Version", .ok (.Unsigned (data.getD 0 0 >>> 4))),
      ("IHL", .ok (.Unsigned (data.getD 0 0 &&& 0x0f))),
      ("DSCP", .ok (.Unsigned (data.getD 1 0 >>> 2))),
      ("ECN", .ok (.Unsigned (data.getD 1 0 &&& 0x03))),
      ("Length", (unsigned ((data.drop 2).take 2) .BigEndian).map OVal.Unsigned),
      ("Identification", .ok (.Unsigned (data.getD 8 0))),
      ("Protocol", .ok (.Unsigned protocol)),
      ("Checksum", .ok (.Bytes ((data.drop 10).take 2))),
      ("Source", .ok (.Address ((data.drop 12).take 4) (encodeAddr ((data.drop 12).take 4)))),
      ("Destination", .ok (.Address ((data.drop 16).take 4) (encodeAddr ((data.drop 16).take 4)))),
      ("Protocol Data", dissect_pdu (data.drop 20))])

/-- Ethernet dissector, `fn dissect` in ethernet.rs. -/
def ethernet.dissect (data : List Nat) : Except DissectError OVal :=
  if data.length < 14 then
    .error (.Underflow 14 data.length "An Ethernet frame must be at least 14 B")
  else
    let destination : String × Except DissectError OVal :=
      ("Destination", .ok (.Bytes (data.take 6)))
    let source : String × Except DissectError OVal :=
      ("Source", .ok (.Bytes ((data.drop 6).take 6)))
    let remainder := data.drop 14
    match unsigned ((data.drop 12).take 2) .BigEndian with
    | .ok i =>
      if i ≤ 1500 then
        .ok (.Object [destination, source, ("Length", .ok (.Unsigned i))])
      else
        let pd : Except DissectError (String × String) × (List Nat → Except DissectError OVal) :=
          if i = 0x800 then (.ok ("IP", "IP data"), ip.dissect)
          else if i = 0x806 then (.ok ("ARP", "ARB data"), raw0)
          else if i = 0x8138 then (.ok ("IPX", "IPX data"), raw0)
          else if i = 0x86dd then (.ok ("IPv6", "IPVv6 data"), raw0)
          else (.error (.InvalidData ("unknown protocol: " ++ hexStr i)), raw0)
        match pd with
        | (.ok (name, val_name), dissector) =>
            .ok (.Object [destination, source,
              ("Type", .ok (.Symbol name)), (val_name, dissector remainder)])
        | (.error e, dissector) =>
            .ok (.Object [destination, source,
              ("Type", .error e), ("Unknown protocol data", dissector remainder)])
    | .error e =>
        .ok (.Object [destination, source, ("Type/length", .error e)])

/-- Children of a successful `OVal` object dissection (empty list otherwise). -/
def entriesOfO (r : Except DissectError OVal) : List (String × Except DissectError OVal) :=
  match r with
  | .ok (.Object values) => values
  | _ => []

/-- First child of the given name among `OVal` object entries. -/
def findEntryO (r : Except DissectError OVal) (key : String) :
    Option (Except DissectError OVal) :=
  ((entriesOfO r).find? (fun kv => kv.1 == key)).map (fun kv => kv.2)

/-- Whether a child of the given name exists among `OVal` object entries. -/
def hasEntryO (r : Except DissectError OVal) (key : String) : Bool :=
  (entriesOfO r).any (fun kv => kv.1 == key)

/-- A value parsed from a packet: `enum Val` in lib.rs.  `Str` models the
`Val::String` constructor (an owned string); `Symbol` a static string;
`BitFlags8` one byte of flags with up to eight bit names; `Object` an ordered
list of named children; `Payload` an embedded nested dissection outcome. -/
inductive Val where
  | Signed (i : Int)
  | Unsigned (n : Nat)
  | Str (s : String)
  | Symbol (s : String)
  | Address (bytes : List Nat) (encoded : String)
  | BitFlags8 (flags : Nat) (names : List (Option String))
  | Object (values : List (String × Val))
  | Payload (result : Except DissectError Val)
  | Bytes (bytes : List Nat)

/-- Dissector of last resort: store raw bytes without interpretation
(`fn raw` in lib.rs). -/
def raw (data : List Nat) : Except DissectError Val :=
  .ok (.Object [("raw data", .Bytes data)])

/-- TCP dissector, `fn dissect` in ip/tcp.rs.  `header_lenght` (spelled as in
the source) is the whole of byte 12 times 4; it is re-validated against the
buffer length, slices the options region when above 20, and positions the raw
payload. -/
def tcp.dissect (data : List Nat) : Except DissectError Val :=
  if data.length < 20 then
    .error (.Underflow 20 data.length "An TCP packet must be at least 20 B")
  else
    let offset := data.getD 12 0
    let header_lenght := offset * 4
    if header_lenght > data.length then
      .error (.Underflow header_lenght data.length
        "TCP packet offset (header length) greater than available data")
    else
      .ok (.Object (
        [("Source Port", Val.Unsigned (unwrapU (unsigned (data.take 2) .BigEndian))),
         ("Destination Port", Val.Unsigned (unwrapU (unsigned ((data.drop 2).take 2) .BigEndian))),
         ("Sequence Number", Val.Unsigned (unwrapU (unsigned ((data.drop 4).take 4) .BigEndian))),
         ("Acknowledgement Number", Val.Unsigned (unwrapU (unsigned ((data.drop 8).take 4) .BigEndian))),
         ("Offset", Val.Unsigned offset),
         ("Flags", Val.BitFlags8 (data.getD 14 0)
            [some "CWR", some "ECE", some "URG", some "ACK",
             some "PSH", some "RST", some "SYN", some "FIN"]),
         ("Window", Val.Unsigned (unwrapU (unsigned ((data.drop 14).take 2) .BigEndian))),
         ("Checksum", Val.Bytes ((data.drop 16).take 2)),
         ("Urgent Pointer", Val.Unsigned (unwrapU (unsigned ((data.drop 18).take 2) .BigEndian)))]
        ++ (if header_lenght > 20 then
              [("Options", Val.Bytes ((data.drop 20).take (header_lenght - 20)))]
            else [])
        ++ [("Payload", Val.Payload (raw (data.drop header_lenght)))]))

mutual

/-- Debug form of a value, as Rust `{:?}` prints the derived `Debug` of `Val`
(none of the strings the dissectors build needs character escaping). -/
def Val.debug : Val → String
  | .Signed i => "Signed(" ++ toString i ++ ")"
  | .Unsigned n => "Unsigned(" ++ toString n ++ ")"
  | .Str s => "String(\"" ++ s ++ "\")"
  | .Symbol s => "Symbol(\"" ++ s ++ "\")"
  | .Address bytes encoded =>
      "Address \x7b bytes: [" ++ String.intercalate ", " (bytes.map toString)
        ++ "], encoded: \"" ++ encoded ++ "\" \x7d"
  | .BitFlags8 flags names =>
      "BitFlags8(" ++ toString flags ++ ", ["
        ++ String.intercalate ", "
            (names.map (fun o => match o with
              | some s => "Some(\"" ++ s ++ "\")"
              | none => "None"))
        ++ "])"
  | .Object values => "Object([" ++ Val.debugEntries values ++ "])"
  | .Payload (.ok v) => "Payload(Ok(" ++ Val.debug v ++ "))"
  | .Payload (.error e) => "Payload(Err(" ++ e.debug ++ "))"
  | .Bytes bytes => "Bytes([" ++ String.intercalate ", " (bytes.map toString) ++ "])"

/-- Debug form of the children of an object, comma separated. -/
def Val.debugEntries : List (String × Val) → String
  | [] => ""
  | [(k, v)] => "(\"" ++ k ++ "\", " ++ Val.debug v ++ ")"
  | (k, v) :: rest => "(\"" ++ k ++ "\", " ++ Val.debug v ++ "), " ++ Val.debugEntries rest

end

/-- Navigation-time errors over an already-built tree: `enum AccessError`
in lib.rs.  Each variant carries its diagnostic message. -/
inductive AccessError where
  | NotFound (desc : String)
  | DissectError (desc : String)
  | LeafVariant (desc : String)
deriving Repr, DecidableEq

/-- Alias for the dissection-error type, usable inside the `AccessError`
namespace where the bare name would resolve to the constructor of the same
spelling. -/
abbrev DissectionError := DissectError

/-- Message builder `AccessError::not_found` from lib.rs. -/
def AccessError.not_found (index : String) (val : Val) : AccessError :=
  .NotFound ("no value for index '" ++ index ++ "' found in: " ++ val.debug)

/-- Message builder `AccessError::dissect_error` from lib.rs: the message
carries the display form of the wrapped dissection error. -/
def AccessError.dissect_error (index : String) (error : DissectionError) : AccessError :=
  .DissectError ("Val::Payload under index '" ++ index ++ "' contains error: "
    ++ error.display)

/-- Message builder `AccessError::leaf_variant` from lib.rs. -/
def AccessError.leaf_variant (val : Val) : AccessError :=
  .LeafVariant ("index on non Val::Object variant: " ++ val.debug)

/-- Navigation by one name, `Val::get` in lib.rs: on an object the first child
of that name or `NotFound`; through a successful payload transparently; on a
failed payload `DissectError`; on every other variant `LeafVariant`. -/
def Val.get (v : Val) (index : String) : Except AccessError Val :=
  match v with
  | .Object values =>
      match values.find? (fun kv => kv.1 == index) with
      | some kv => .ok kv.2
      | none => .error (AccessError.not_found index (.Object values))
  | .Payload (.ok val) => val.get index
  | .Payload (.error e) => .error (AccessError.dissect_error index e)
  | other => .error (AccessError.leaf_variant other)

/-- Navigation by a sequence of names, `Val::get_path` in lib.rs: a fold of
`get` that keeps the first error. -/
def Val.get_path (v : Val) (keys : List String) : Except AccessError Val :=
  keys.foldl
    (fun val index =>
      match val with
      | .ok val => val.get index
      | .error _ => val)
    (.ok v)

/-- Navigation by a dotted path, `Val::lookup` in lib.rs: a fold of `get` over
the dot-separated components, collapsing every error to `none`. -/
def Val.lookup (v : Val) (path : String) : Option Val :=
  (path.splitOn ".").foldl
    (fun val index =>
      match val with
      | some val => (val.get index).toOption
      | none => none)
    (some v)

/-- Binary form of one flag byte as Rust `{:08b}` prints it: eight binary
digits, most significant first. -/
def bits8 (n : Nat) : String :=
  String.mk (((List.range 8).reverse).map (fun i => if n &&& (1 <<< i) > 0 then '1' else '0'))

/-- Names of the set named bits of a flag byte, in bit order, as the
`Display` arm for `Val::BitFlags8` collects them. -/
def namedSetBits (flags : Nat) (names : List (Option String)) : List String :=
  (List.range 8).filterMap (fun i =>
    match names.getD i none with
    | some desc => if flags &&& (1 <<< i) > 0 then some desc else none
    | none => none)

mutual

/-- Textual rendering of a value, `impl fmt::Display for Val` in lib.rs. -/
def Val.display : Val → String
  | .Signed i => toString i
  | .Unsigned n => toString n
  | .Str s => "\"" ++ s ++ "\""
  | .Symbol s => s
  | .Address _ encoded => encoded
  | .BitFlags8 flags names =>
      bits8 flags ++ " (" ++ String.intercalate "+" (namedSetBits flags names) ++ ")"
  | .Object values => "\x7b " ++ Val.displayEntries values ++ " \x7d"
  | .Payload (.ok v) => "(" ++ Val.display v ++ ")"
  | .Payload (.error e) => "<<" ++ e.display ++ ">>"
  | .Bytes bytes =>
      let to_print := if bytes.length < 16 then bytes else bytes.take 16
      toString bytes.length ++ " B ["
        ++ String.join (to_print.map (fun b => " " ++ hex2 b))
        ++ (if bytes.length > 16 then " ..." else "")
        ++ " ]"

/-- Rendering of the children of an object: `name: value`, comma separated. -/
def Val.displayEntries : List (String × Val) → String
  | [] => ""
  | [(k, v)] => k ++ ": " ++ Val.display v
  | (k, v) :: rest => k ++ ": " ++ Val.display v ++ ", " ++ Val.displayEntries rest

end

/-- Textual form of a whole dissection outcome: the rendering of the tree on
success, of the typed error otherwise. -/
def renderResult (r : Except DissectError Val) : String :=
  match r with
  | .ok v => v.display
  | .error e => e.display

/-- Children of a successful `Val` object dissection (empty list otherwise). -/
def entriesOfV (r : Except DissectError Val) : List (String × Val) :=
  match r with
  | .ok (.Object values) => values
  | _ => []

/-- First child of the given name among `Val` object entries. -/
def findEntryV (r : Except DissectError Val) (key : String) : Option Val :=
  ((entriesOfV r).find? (fun kv => kv.1 == key)).map (fun kv => kv.2)

/-- Whether a child of the given name exists among `Val` object entries. -/
def hasEntryV (r : Except DissectError Val) (key : String) : Bool :=
  (entriesOfV r).any (fun kv => kv.1 == key)

/-- First child with a given name in an ordered list of named children, as the
specification of `get` describes it: lookup always resolves to the first
match. -/
def firstMatch : List (String × Val) → String → Option Val
  | [], _ => none
  | (k, v) :: rest, name => if k = name then some v else firstMatch rest name

/-- Whether a navigation result is the `NotFound` error. -/
def isNotFound (r : Except AccessError Val) : Bool :=
  match r with
  | .error (.NotFound _) => true
  | _ => false

/-- Whether a navigation result is the `LeafVariant` error. -/
def isLeafVariant (r : Except AccessError Val) : Bool :=
  match r with
  | .error (.LeafVariant _) => true
  | _ => false

/-- Whether a value is one of the childless variants: neither an object nor a
payload. -/
def Val.isLeafLike : Val → Bool
  | .Object _ => false
  | .Payload _ => false
  | _ => true

/-- Rendering of a `Bytes` node as the specification words it: the byte count,
then at most the first 16 bytes in two-digit lowercase hexadecimal, then an
ellipsis marker exactly when the sequence is longer than 16 bytes. -/
def bytesRenderSpec (bytes : List Nat) : String :=
  toString bytes.length ++ " B ["
    ++ String.join ((bytes.take 16).map (fun b => " " ++ hex2 b))
    ++ (if 16 < bytes.length then " ..." else "")
    ++ " ]"

/-- Big-endian in place of Ethernet and IP: the type/length field of an
Ethernet frame, the big-endian 16-bit value of bytes 12 and 13. -/
def ethernetTL (data : List Nat) : Nat := readBE ((data.drop 12).take 2)

/-- The 60-byte IP packet of the test in ip/mod.rs (also the frame named in
the testable properties of the specification). -/
def ipTestData : List Nat :=
  [69, 0, 0, 60, 0, 0, 64, 0, 46, 6, 161, 36, 46, 137, 186, 243, 192, 168, 1, 115,
   1, 187, 252, 235, 74, 97, 130, 175, 50, 220, 74, 238, 160, 18, 56, 144, 237, 13, 0, 0,
   2, 4, 5, 180, 4, 2, 8, 10, 15, 68, 221, 156, 29, 26, 35, 62, 1, 3, 3, 6]

/-- A 20-byte IP header whose first byte is 0x4f: version 4, IHL 15, so a
header length of 60 bytes declared inside a 20-byte buffer. -/
def ipIhl15 : List Nat :=
  [0x4f, 0, 0, 20, 0, 0, 0, 0, 0, 6, 0, 0, 10, 0, 0, 1, 10, 0, 0, 2]

/-- A 20-byte TCP header whose byte 12 is 0x50, the on-the-wire form of a
data offset of 5 words (offset in the high nibble). -/
def tcpOffset80 : List Nat :=
  [1, 187, 252, 235, 74, 97, 130, 175, 50, 220, 74, 238, 0x50, 18, 56, 144, 237, 13, 0, 0]

/-- A 24-byte TCP segment whose byte 12 is 6, giving a 24-byte header with a
4-byte options region. -/
def tcpOffset6 : List Nat :=
  [1, 187, 252, 235, 74, 97, 130, 175, 50, 220, 74, 238, 6, 18, 56, 144, 237, 13, 0, 0,
   9, 9, 9, 9]

/-- A 20-byte TCP segment whose byte 12 is 0. -/
def tcpOffset0 : List Nat :=
  [1, 187, 252, 235, 74, 97, 130, 175, 50, 220, 74, 238, 0, 18, 56, 144, 237, 13, 0, 0]

/-- A 14-byte Ethernet frame with type code 0x8137. -/
def eth8137Frame : List Nat :=
  [1, 2, 3, 4, 5, 6, 7, 8, 9, 10, 11, 12, 0x81, 0x37]

/-- The 14-byte Ethernet frame of the test in ethernet.rs with its type code
replaced by 0x9999. -/
def eth9999Frame : List Nat :=
  [132, 56, 53, 69, 73, 136, 156, 32, 123, 233, 26, 2, 0x99, 0x99]

/-- A 2-byte window always decodes: the big-endian unsigned read of it. -/
theorem unsigned_two (l : List Nat) (h : l.length = 2) :
    unsigned l .BigEndian = .ok (readBE l) := by
  match l with
  | [a, b] => rfl
  | [] => simp at h
  | [a] => simp at h
  | a :: b :: c :: t => simp at h

/-- Shape of a successful TCP dissection: once the two underflow checks pass,
the tree is the fixed header fields, the options region when the recomputed
header length exceeds 20, and the raw payload after the header. -/
theorem tcp_dissect_shape (data : List Nat) (h : 20 ≤ data.length)
    (hhl : data.getD 12 0 * 4 ≤ data.length) :
    tcp.dissect data = .ok (.Object (
      [("Source Port", Val.Unsigned (unwrapU (unsigned (data.take 2) .BigEndian))),
       ("Destination Port", Val.Unsigned (unwrapU (unsigned ((data.drop 2).take 2) .BigEndian))),
       ("Sequence Number", Val.Unsigned (unwrapU (unsigned ((data.drop 4).take 4) .BigEndian))),
       ("Acknowledgement Number", Val.Unsigned (unwrapU (unsigned ((data.drop 8).take 4) .BigEndian))),
       ("Offset", Val.Unsigned (data.getD 12 0)),
       ("Flags", Val.BitFlags8 (data.getD 14 0)
          [some "CWR", some "ECE", some "URG", some "ACK",
           some "PSH", some "RST", some "SYN", some "FIN"]),
       ("Window", Val.Unsigned (unwrapU (unsigned ((data.drop 14).take 2) .BigEndian))),
       ("Checksum", Val.Bytes ((data.drop 16).take 2)),
       ("Urgent Pointer", Val.Unsigned (unwrapU (unsigned ((data.drop 18).take 2) .BigEndian)))]
      ++ (if data.getD 12 0 * 4 > 20 then
            [("Options", Val.Bytes ((data.drop 20).take (data.getD 12 0 * 4 - 20)))]
          else [])
      ++ [("Payload", Val.Payload (raw (data.drop (data.getD 12 0 * 4))))])) := by
  simp only [tcp.dissect]
  rw [if_neg (show ¬ data.length < 20 by omega),
    if_neg (show ¬ data.getD 12 0 * 4 > data.length by omega)]

/-- Shape of a successful IP dissection: any buffer of at least 20 bytes
yields the eleven fixed entries, the last being the raw dissection of
`data[20..]`. -/
theorem ip_dissect_shape (data : List Nat) (h : 20 ≤ data.length) :
    ip.dissect data = .ok (.Object [
      ("Version", .ok (.Unsigned (data.getD 0 0 >>> 4))),
      ("IHL", .ok (.Unsigned (data.getD 0 0 &&& 0x0f))),
      ("DSCP", .ok (.Unsigned (data.getD 1 0 >>> 2))),
      ("ECN", .ok (.Unsigned (data.getD 1 0 &&& 0x03))),
      ("Length", (unsigned ((data.drop 2).take 2) .BigEndian).map OVal.Unsigned),
      ("Identification", .ok (.Unsigned (data.getD 8 0))),
      ("Protocol", .ok (.Unsigned (data.getD 9 0))),
      ("Checksum", .ok (.Bytes ((data.drop 10).take 2))),
      ("Source", .ok (.Address ((data.drop 12).take 4) (encodeAddr ((data.drop 12).take 4)))),
      ("Destination", .ok (.Address ((data.drop 16).take 4) (encodeAddr ((data.drop 16).take 4)))),
      ("Protocol Data", raw0 (data.drop 20))]) := by
  simp only [ip.dissect]
  rw [if_neg (show ¬ data.length < 20 by omega)]


/-- The recursive first-match view of `List.find?` over named children. -/
theorem firstMatch_eq_find (values : List (String × Val)) (name : String) :
    firstMatch values name
      = (values.find? (fun kv => kv.1 == name)).map (fun kv => kv.2) := by
  induction values with
  | nil => rfl
  | cons kv rest ih =>
    obtain ⟨k, v⟩ := kv
    by_cases hk : k = name
    · simp [firstMatch, List.find?, hk, ih]
    · have hbeq : (k == name) = false := by simp [hk]
      simp [firstMatch, List.find?, hk, hbeq, ih]

/-- Success of `get` on an object is exactly a first match among the named
children. -/
theorem get_object_ok_iff (values : List (String × Val)) (name : String) (v : Val) :
    Val.get (.Object values) name = .ok v ↔ firstMatch values name = some v := by
  rw [firstMatch_eq_find]
  cases hf : values.find? (fun kv => kv.1 == name) with
  | none => simp [Val.get, hf]
  | some kv => simp [Val.get, hf, eq_comm]

/-- The `NotFound` outcome of `get` on an object is exactly the absence of a
first match among the named children. -/
theorem get_object_notFound_iff (values : List (String × Val)) (name : String) :
    isNotFound (Val.get (.Object values) name) = true ↔ firstMatch values name = none := by
  rw [firstMatch_eq_find]
  cases hf : values.find? (fun kv => kv.1 == name) with
  | none => simp [Val.get, hf, isNotFound, AccessError.not_found]
  | some kv => simp [Val.get, hf, isNotFound]

/-- The fold inside `get_path` keeps an error once one has appeared. -/
theorem get_path_fold_error (keys : List String) (e : AccessError) :
    keys.foldl
      (fun (val : Except AccessError Val) (index : String) =>
        match val with
        | .ok val => val.get index
        | .error _ => val)
      (.error e) = .error e := by
  induction keys with
  | nil => rfl
  | cons k keys ih => simpa using ih

/-- The fold inside `lookup` keeps `none` once every value has been lost. -/
theorem lookup_fold_none (keys : List String) :
    keys.foldl
      (fun (val : Option Val) (index : String) =>
        match val with
        | some val => (val.get index).toOption
        | none => none)
      none = none := by
  induction keys with
  | nil => rfl
  | cons k keys ih => simpa using ih

/-- The folds inside `lookup` and `get_path` agree modulo `Except.toOption`. -/
theorem lookup_fold_eq_get_path_fold (keys : List String) (r : Except AccessError Val) :
    keys.foldl
      (fun (val : Option Val) (index : String) =>
        match val with
        | some val => (val.get index).toOption
        | none => none)
      r.toOption
      = (keys.foldl
          (fun (val : Except AccessError Val) (index : String) =>
            match val with
            | .ok val => val.get index
            | .error _ => val)
          r).toOption := by
  induction keys generalizing r with
  | nil => rfl
  | cons k keys ih =>
    cases r with
    | ok v => simpa using ih (v.get k)
    | error e => exact (lookup_fold_none keys).trans (by rw [get_path_fold_error]; rfl)

/-- Claim C6: every input shorter than 14 bytes makes Ethernet dissection
return Underflow with expected 14 and have equal to the input length; every
input shorter than 20 bytes makes IP dissection return Underflow with
expected 20, and TCP dissection likewise with the same threshold of 20. -/
theorem claim_C6 :
    (∀ data : List Nat, data.length < 14 →
      ethernet.dissect data =
        .error (.Underflow 14 data.length "An Ethernet frame must be at least 14 B"))
  ∧ (∀ data : List Nat, data.length < 20 →
      ip.dissect data =
        .error (.Underflow 20 data.length "An IP packet must be at least 20 B"))
  ∧ (∀ data : List Nat, data.length < 20 →
      tcp.dissect data =
        .error (.Underflow 20 data.length "An TCP packet must be at least 20 B")) := by
  refine ⟨fun data h => ?_, fun data h => ?_, fun data h => ?_⟩
  · unfold ethernet.dissect; rw [if_pos h]
  · unfold ip.dissect; rw [if_pos h]
  · unfold tcp.dissect; rw [if_pos h]

/-- Witness for claim C6 at the empty buffer. -/
theorem claim_C6_witness :
    ethernet.dissect [] =
      .error (.Underflow 14 0 "An Ethernet frame must be at least 14 B")
  ∧ ip.dissect [] = .error (.Underflow 20 0 "An IP packet must be at least 20 B")
  ∧ tcp.dissect [] = .error (.Underflow 20 0 "An TCP packet must be at least 20 B") :=
  ⟨claim_C6.1 [] (by decide), claim_C6.2.1 [] (by decide), claim_C6.2.2 [] (by decide)⟩

/-- Claim C9: dissection is a pure function of its input bytes, so dissecting
the same buffer twice with any of the three dissectors produces structurally
equal trees and identical rendered text. -/
theorem claim_C9 : ∀ data : List Nat,
    ethernet.dissect data = ethernet.dissect data
  ∧ ip.dissect data = ip.dissect data
  ∧ tcp.dissect data = tcp.dissect data
  ∧ renderResult (tcp.dissect data) = renderResult (tcp.dissect data) :=
  fun _ => ⟨rfl, rfl, rfl, rfl⟩

/-- Claim C3, the divergence: on the 1-byte window `[255]` the `signed`
decoder returns 255 under either endianness — the source widens `buffer[0]`
(a `u8`) without sign extension — although sign-extending the 8-bit value
255, as the claim and the function documentation describe, yields -1. -/
theorem claim_C3_bug :
    signed [255] Endianness.BigEndian = .ok 255
  ∧ signed [255] Endianness.LittleEndian = .ok 255
  ∧ toSigned 8 255 = -1
  ∧ signed [255, 255] Endianness.BigEndian = .ok (-1)
  ∧ unsigned [255] Endianness.BigEndian = .ok 255
  ∧ signed [1, 2, 3] Endianness.BigEndian =
      .error (.InvalidData "Invalid integer size: 3 B") := by
  refine ⟨rfl, rfl, by decide, rfl, rfl, rfl⟩

/-- Claim C7: `get` on an object returns the first child of the requested
name and `NotFound` when none exists; it descends transparently through a
successful payload; on a failed payload it returns `DissectError` carrying
the wrapped error's description; on every other variant it returns
`LeafVariant`.  `get_path` applies `get` across a sequence of names,
short-circuiting on the first error, and `lookup` over a dotted path agrees
with `get_path` on the dot-separated components with every error collapsed
to `none`. -/
theorem claim_C7 :
    (∀ (values : List (String × Val)) (name : String) (v : Val),
      Val.get (.Object values) name = .ok v ↔ firstMatch values name = some v)
  ∧ (∀ (values : List (String × Val)) (name : String),
      isNotFound (Val.get (.Object values) name) = true ↔ firstMatch values name = none)
  ∧ (∀ (w : Val) (name : String), Val.get (.Payload (.ok w)) name = w.get name)
  ∧ (∀ (e : DissectError) (name : String),
      Val.get (.Payload (.error e)) name =
        .error (.DissectError ("Val::Payload under index '" ++ name
          ++ "' contains error: " ++ e.display)))
  ∧ (∀ (v : Val) (name : String),
      v.isLeafLike = true → isLeafVariant (v.get name) = true)
  ∧ (∀ v : Val, v.get_path [] = .ok v)
  ∧ (∀ (v : Val) (k : String) (ks : List String),
      v.get_path (k :: ks) =
        match v.get k with
        | .ok w => w.get_path ks
        | .error e => .error e)
  ∧ (∀ (v : Val) (path : String),
      v.lookup path = (v.get_path (path.splitOn ".")).toOption) := by
  refine ⟨get_object_ok_iff, get_object_notFound_iff, fun w name => rfl,
    fun e name => rfl, fun v name h => ?_, fun v => rfl, fun v k ks => ?_, fun v path => ?_⟩
  · cases v <;> simp [Val.isLeafLike] at h <;> simp [Val.get, isLeafVariant, AccessError.leaf_variant]
  · cases hv : v.get k with
    | ok w => simp [Val.get_path, hv]
    | error e =>
      simp only [Val.get_path, List.foldl_cons]
      rw [hv]
      exact get_path_fold_error ks e
  · exact lookup_fold_eq_get_path_fold (path.splitOn ".") (.ok v)

/-- Witness for claim C7: navigating into a scalar yields the `LeafVariant`
error. -/
theorem claim_C7_witness :
    (Val.Unsigned 42).isLeafLike = true
  ∧ isLeafVariant ((Val.Unsigned 42).get "baz") = true :=
  ⟨rfl, claim_C7.2.2.2.2.1 (Val.Unsigned 42) "baz" rfl⟩

/-- Claim C8: a `Bytes` node renders as its byte count followed by at most
the first 16 bytes in two-digit lowercase hexadecimal, with the ellipsis
marker appended exactly when the sequence is longer than 16 bytes; a 20-byte
node renders the first 16 bytes plus the marker, a 10-byte node renders all
10 bytes and no marker. -/
theorem claim_C8 :
    (∀ bytes : List Nat, Val.display (Val.Bytes bytes) = bytesRenderSpec bytes)
  ∧ (∀ bytes : List Nat, bytes.length = 20 →
      Val.display (Val.Bytes bytes) =
        "20 B [" ++ String.join ((bytes.take 16).map (fun b => " " ++ hex2 b)) ++ " ... ]")
  ∧ (∀ bytes : List Nat, bytes.length = 10 →
      Val.display (Val.Bytes bytes) =
        "10 B [" ++ String.join (bytes.map (fun b => " " ++ hex2 b)) ++ " ]")
  ∧ (∀ b : Nat, b < 256 → (hex2 b).length = 2) := by
  have hmain : ∀ bytes : List Nat, Val.display (Val.Bytes bytes) = bytesRenderSpec bytes := by
    intro bytes
    by_cases h : bytes.length < 16
    · simp [Val.display, bytesRenderSpec, h, List.take_of_length_le (Nat.le_of_lt h),
        show ¬ 16 < bytes.length by omega]
    · simp [Val.display, bytesRenderSpec, h]
  have hhex : ∀ b : Nat, b < 256 → (hex2 b).length = 2 := by
    set_option maxRecDepth 4096 in decide
  refine ⟨hmain, fun bytes h => ?_, fun bytes h => ?_, hhex⟩
  · rw [hmain, bytesRenderSpec, h, if_pos (by norm_num)]
    rw [show (toString (20 : Nat)) = "20" from by decide]
    rw [show ("20" : String) ++ " B [" = "20 B [" from by decide]
    rw [String.append_assoc]
    rw [show (" ..." : String) ++ " ]" = " ... ]" from by decide]
  · rw [hmain, bytesRenderSpec, h, if_neg (by norm_num),
      List.take_of_length_le (by omega)]
    rw [show (toString (10 : Nat)) = "10" from by decide]
    rw [show ("10" : String) ++ " B [" = "10 B [" from by decide]
    rw [String.append_empty]

/-- Witness for claim C8 on concrete 20-byte and 10-byte sequences. -/
theorem claim_C8_witness :
    Val.display (Val.Bytes (List.range 20)) =
      "20 B [" ++ String.join (((List.range 20).take 16).map (fun b => " " ++ hex2 b)) ++ " ... ]"
  ∧ Val.display (Val.Bytes (List.range 10)) =
      "10 B [" ++ String.join ((List.range 10).map (fun b => " " ++ hex2 b)) ++ " ]"
  ∧ (hex2 255).length = 2 :=
  ⟨claim_C8.2.1 (List.range 20) (by decide), claim_C8.2.2.1 (List.range 10) (by decide),
    claim_C8.2.2.2 255 (by decide)⟩

/-- Claim C1 (amended): for every IP input of at least 20 bytes the next
dissector is the raw fallback for every protocol number, the protocol-data
entry being the raw dissection of `data[20..]`; on the 60-byte test frame the
tree reports Version 4, IHL 5, DSCP 0, ECN 0, Protocol 6, the source address
encoded as 46.137.186.243, the destination as 192.168.1.115, and a nested
raw-fallback payload. -/
theorem claim_C1 :
    (∀ data : List Nat, 20 ≤ data.length →
      findEntryO (ip.dissect data) "Protocol Data" = some (raw0 (data.drop 20)))
  ∧ findEntryO (ip.dissect ipTestData) "Version" = some (.ok (.Unsigned 4))
  ∧ findEntryO (ip.dissect ipTestData) "IHL" = some (.ok (.Unsigned 5))
  ∧ findEntryO (ip.dissect ipTestData) "DSCP" = some (.ok (.Unsigned 0))
  ∧ findEntryO (ip.dissect ipTestData) "ECN" = some (.ok (.Unsigned 0))
  ∧ findEntryO (ip.dissect ipTestData) "Protocol" = some (.ok (.Unsigned 6))
  ∧ findEntryO (ip.dissect ipTestData) "Source"
      = some (.ok (.Address [46, 137, 186, 243] "46.137.186.243"))
  ∧ findEntryO (ip.dissect ipTestData) "Destination"
      = some (.ok (.Address [192, 168, 1, 115] "192.168.1.115"))
  ∧ findEntryO (ip.dissect ipTestData) "Protocol Data"
      = some (raw0 (ipTestData.drop 20)) := by
  refine ⟨fun data h => ?_, rfl, rfl, rfl, rfl, rfl, rfl, rfl, rfl⟩
  rw [ip_dissect_shape data h]
  simp [findEntryO, entriesOfO, List.find?]

/-- Witness for claim C1 at the 60-byte test frame. -/
theorem claim_C1_witness :
    findEntryO (ip.dissect ipTestData) "Protocol Data" = some (raw0 (ipTestData.drop 20)) :=
  claim_C1.1 ipTestData (by decide)

/-- Counterexample for claim C1 as stated: on the 60-byte test frame the
protocol number is 6, yet the node attached under Protocol Data is the raw
fallback tree, whose only child is the raw-data bytes — not a TCP dissection
(the protocol table of ip/mod.rs sends every protocol number to `raw`). -/
theorem claim_C1_counterexample :
    findEntryO (ip.dissect ipTestData) "Protocol" = some (.ok (.Unsigned 6))
  ∧ findEntryO (ip.dissect ipTestData) "Protocol Data"
      = some (.ok (.Object [("raw data", .ok (.Bytes (ipTestData.drop 20)))]))
  ∧ (entriesOfO (raw0 (ipTestData.drop 20))).map Prod.fst = ["raw data"] :=
  ⟨rfl, rfl, rfl⟩

/-- Claim C4 (amended): for every IP input of at least 20 bytes the dissector
extracts IHL (the low nibble of byte 0) as a plain field but never recomputes
a header length from it, never re-validates one against the buffer, and never
attaches an options region: dissection succeeds whatever the IHL value, and
the remainder dissected as protocol data is always `data[20..]`. -/
theorem claim_C4 : ∀ data : List Nat, 20 ≤ data.length →
    isOk (ip.dissect data) = true
  ∧ findEntryO (ip.dissect data) "IHL" = some (.ok (.Unsigned (data.getD 0 0 &&& 0x0f)))
  ∧ hasEntryO (ip.dissect data) "Options" = false
  ∧ findEntryO (ip.dissect data) "Protocol Data" = some (raw0 (data.drop 20)) := by
  intro data h
  rw [ip_dissect_shape data h]
  refine ⟨rfl, ?_, ?_, ?_⟩
  · simp [findEntryO, entriesOfO, List.find?]
  · simp [hasEntryO, entriesOfO]
  · simp [findEntryO, entriesOfO, List.find?]

/-- Witness for claim C4 at the 20-byte buffer with IHL 15. -/
theorem claim_C4_witness :
    isOk (ip.dissect ipIhl15) = true
  ∧ findEntryO (ip.dissect ipIhl15) "IHL" = some (.ok (.Unsigned (ipIhl15.getD 0 0 &&& 0x0f)))
  ∧ hasEntryO (ip.dissect ipIhl15) "Options" = false
  ∧ findEntryO (ip.dissect ipIhl15) "Protocol Data" = some (raw0 (ipIhl15.drop 20)) :=
  claim_C4 ipIhl15 (by decide)

/-- Counterexample for claim C4 as stated: the 20-byte buffer with first byte
0x4f declares IHL 15, a 60-byte header length, longer than the buffer — yet
dissection succeeds with no Underflow and attaches no options region, because
ip/mod.rs never recomputes or re-validates the header length. -/
theorem claim_C4_counterexample :
    isOk (ip.dissect ipIhl15) = true
  ∧ ipIhl15.length = 20
  ∧ (ipIhl15.getD 0 0 &&& 0x0f) * 4 = 60
  ∧ hasEntryO (ip.dissect ipIhl15) "Options" = false :=
  ⟨rfl, rfl, rfl, rfl⟩

/-- Claim C2 (amended): for every TCP input of at least 20 bytes the header
length used for slicing is the whole of byte 12 times 4 (not only its high
nibble); when it exceeds the buffer length the dissector fails with Underflow
whose expected field is that recomputed length and whose have field is the
buffer length; otherwise the options region is `data[20..header_lenght)`
exactly when the length exceeds 20, and the payload starts at the recomputed
header length. -/
theorem claim_C2 : ∀ data : List Nat, 20 ≤ data.length →
    (data.getD 12 0 * 4 > data.length →
      tcp.dissect data = .error (.Underflow (data.getD 12 0 * 4) data.length
        "TCP packet offset (header length) greater than available data"))
  ∧ (data.getD 12 0 * 4 ≤ data.length →
        findEntryV (tcp.dissect data) "Payload"
          = some (.Payload (raw (data.drop (data.getD 12 0 * 4))))
      ∧ (data.getD 12 0 * 4 > 20 →
          findEntryV (tcp.dissect data) "Options"
            = some (.Bytes ((data.drop 20).take (data.getD 12 0 * 4 - 20))))
      ∧ (data.getD 12 0 * 4 ≤ 20 → hasEntryV (tcp.dissect data) "Options" = false)) := by
  intro data h
  constructor
  · intro hgt
    simp only [tcp.dissect]
    rw [if_neg (show ¬ data.length < 20 by omega), if_pos hgt]
  · intro hle
    rw [tcp_dissect_shape data h hle]
    refine ⟨?_, fun hopt => ?_, fun hnopt => ?_⟩
    · by_cases hopt : data.getD 12 0 * 4 > 20
      · rw [if_pos hopt]; simp [findEntryV, entriesOfV, List.find?]
      · rw [if_neg hopt]; simp [findEntryV, entriesOfV, List.find?]
    · rw [if_pos hopt]; simp [findEntryV, entriesOfV, List.find?]
    · rw [if_neg (show ¬ data.getD 12 0 * 4 > 20 by omega)]
      simp [hasEntryV, entriesOfV]

/-- Witness for claim C2: the 20-byte header with byte 12 = 0x50 underflows
with expected 320, and the 24-byte segment with byte 12 = 6 carries its
4-byte options region. -/
theorem claim_C2_witness :
    tcp.dissect tcpOffset80 = .error (.Underflow 320 20
      "TCP packet offset (header length) greater than available data")
  ∧ findEntryV (tcp.dissect tcpOffset6) "Options" = some (.Bytes [9, 9, 9, 9]) :=
  ⟨(claim_C2 tcpOffset80 (by decide)).1 (by decide),
    ((claim_C2 tcpOffset6 (by decide)).2 (by decide)).2.1 (by decide)⟩

/-- Counterexample for claim C2 as stated: on the 20-byte header whose byte
12 is 0x50 (data offset 5 in the high nibble, so a 20-byte header on the
wire), the dissector underflows with expected 320 = 0x50 * 4, although the
high nibble times 4 is 20, which does not exceed the 20-byte buffer. -/
theorem claim_C2_counterexample :
    tcp.dissect tcpOffset80 = .error (.Underflow 320 20
      "TCP packet offset (header length) greater than available data")
  ∧ (tcpOffset80.getD 12 0 >>> 4) * 4 = 20
  ∧ tcpOffset80.length = 20 :=
  ⟨rfl, rfl, rfl⟩

/-- Claim C10: a TCP input of at least 20 bytes whose byte 12 times 4 is
below 20 still dissects successfully: no Options child is attached and the
raw-fallback payload covers `data[byte12 * 4 ..]`, the whole buffer when
byte 12 is zero. -/
theorem claim_C10 : ∀ data : List Nat, 20 ≤ data.length →
    data.getD 12 0 * 4 < 20 →
    isOk (tcp.dissect data) = true
  ∧ hasEntryV (tcp.dissect data) "Options" = false
  ∧ findEntryV (tcp.dissect data) "Payload"
      = some (.Payload (raw (data.drop (data.getD 12 0 * 4))))
  ∧ (data.getD 12 0 = 0 → findEntryV (tcp.dissect data) "Payload"
      = some (.Payload (raw data))) := by
  intro data h hlow
  have hle : data.getD 12 0 * 4 ≤ data.length := by omega
  refine ⟨?_, ?_, ?_, fun h0 => ?_⟩
  · rw [tcp_dissect_shape data h hle]; rfl
  · rw [tcp_dissect_shape data h hle, if_neg (by omega)]
    simp [hasEntryV, entriesOfV]
  · rw [tcp_dissect_shape data h hle, if_neg (by omega)]
    simp [findEntryV, entriesOfV, List.find?]
  · rw [tcp_dissect_shape data h hle, if_neg (by omega), h0]
    simp [findEntryV, entriesOfV, List.find?]

/-- Witness for claim C10 at the 20-byte segment whose byte 12 is 0. -/
theorem claim_C10_witness :
    isOk (tcp.dissect tcpOffset0) = true
  ∧ hasEntryV (tcp.dissect tcpOffset0) "Options" = false
  ∧ findEntryV (tcp.dissect tcpOffset0) "Payload"
      = some (.Payload (raw tcpOffset0)) :=
  ⟨(claim_C10 tcpOffset0 (by decide) (by decide)).1,
   (claim_C10 tcpOffset0 (by decide) (by decide)).2.1,
   (claim_C10 tcpOffset0 (by decide) (by decide)).2.2.2 rfl⟩

/-- Claim C5 (amended): for an Ethernet input of at least 14 bytes, a
type/length value of at most 1500 is recorded as a Length with no further
dissection; otherwise 0x0800 dispatches to the IP dissector and 0x0806
(ARP), 0x8138 (IPX) and 0x86DD (IPv6) to the raw fallback under their
protocol symbols — 0x8137 is *not* recognized — and every other value,
0x8137 and 0x9999 included, yields the Type entry as an InvalidData error
naming the code in hexadecimal with the raw fallback under the label
Unknown protocol data, while the Destination and Source entries stay intact
in every branch. -/
theorem claim_C5 : ∀ data : List Nat, 14 ≤ data.length →
    (ethernetTL data ≤ 1500 →
      ethernet.dissect data = .ok (.Object [
        ("Destination", .ok (.Bytes (data.take 6))),
        ("Source", .ok (.Bytes ((data.drop 6).take 6))),
        ("Length", .ok (.Unsigned (ethernetTL data)))]))
  ∧ (ethernetTL data = 0x800 →
      ethernet.dissect data = .ok (.Object [
        ("Destination", .ok (.Bytes (data.take 6))),
        ("Source", .ok (.Bytes ((data.drop 6).take 6))),
        ("Type", .ok (.Symbol "IP")),
        ("IP data", ip.dissect (data.drop 14))]))
  ∧ (ethernetTL data = 0x806 →
      ethernet.dissect data = .ok (.Object [
        ("Destination", .ok (.Bytes (data.take 6))),
        ("Source", .ok (.Bytes ((data.drop 6).take 6))),
        ("Type", .ok (.Symbol "ARP")),
        ("ARB data", raw0 (data.drop 14))]))
  ∧ (ethernetTL data = 0x8138 →
      ethernet.dissect data = .ok (.Object [
        ("Destination", .ok (.Bytes (data.take 6))),
        ("Source", .ok (.Bytes ((data.drop 6).take 6))),
        ("Type", .ok (.Symbol "IPX")),
        ("IPX data", raw0 (data.drop 14))]))
  ∧ (ethernetTL data = 0x86dd →
      ethernet.dissect data = .ok (.Object [
        ("Destination", .ok (.Bytes (data.take 6))),
        ("Source", .ok (.Bytes ((data.drop 6).take 6))),
        ("Type", .ok (.Symbol "IPv6")),
        ("IPVv6 data", raw0 (data.drop 14))]))
  ∧ (1500 < ethernetTL data → ethernetTL data ≠ 0x800 → ethernetTL data ≠ 0x806 →
      ethernetTL data ≠ 0x8138 → ethernetTL data ≠ 0x86dd →
      ethernet.dissect data = .ok (.Object [
        ("Destination", .ok (.Bytes (data.take 6))),
        ("Source", .ok (.Bytes ((data.drop 6).take 6))),
        ("Type", .error (.InvalidData ("unknown protocol: " ++ hexStr (ethernetTL data)))),
        ("Unknown protocol data", raw0 (data.drop 14))])) := by
  intro data h
  have hsl : ((data.drop 12).take 2).length = 2 := by
    simp [List.length_take, List.length_drop]; omega
  have hu : unsigned ((data.drop 12).take 2) .BigEndian = .ok (ethernetTL data) := by
    rw [ethernetTL]; exact unsigned_two _ hsl
  refine ⟨fun hlen => ?_, fun hv => ?_, fun hv => ?_, fun hv => ?_, fun hv => ?_,
    fun hgt h800 h806 h8138 h86dd => ?_⟩
  · simp only [ethernet.dissect, hu]
    rw [if_neg (show ¬ data.length < 14 by omega), if_pos hlen]
  · simp only [ethernet.dissect, hu]
    rw [if_neg (show ¬ data.length < 14 by omega), hv]
    norm_num
  · simp only [ethernet.dissect, hu]
    rw [if_neg (show ¬ data.length < 14 by omega), hv]
    norm_num
  · simp only [ethernet.dissect, hu]
    rw [if_neg (show ¬ data.length < 14 by omega), hv]
    norm_num
  · simp only [ethernet.dissect, hu]
    rw [if_neg (show ¬ data.length < 14 by omega), hv]
    norm_num
  · simp only [ethernet.dissect, hu]
    rw [if_neg (show ¬ data.length < 14 by omega),
      if_neg (show ¬ ethernetTL data ≤ 1500 by omega),
      if_neg h800, if_neg h806, if_neg h8138, if_neg h86dd]

/-- Witness for claim C5: the Ethernet test frame with type code 0x9999
keeps its Destination and Source fields and tags the unknown code 9999. -/
theorem claim_C5_witness :
    ethernet.dissect eth9999Frame = .ok (.Object [
      ("Destination", .ok (.Bytes [132, 56, 53, 69, 73, 136])),
      ("Source", .ok (.Bytes [156, 32, 123, 233, 26, 2])),
      ("Type", .error (.InvalidData "unknown protocol: 9999")),
      ("Unknown protocol data", .ok (.Object [("raw data", .ok (.Bytes []))]))]) :=
  (claim_C5 eth9999Frame (by decide)).2.2.2.2.2
    (by decide) (by decide) (by decide) (by decide) (by decide)

/-- Counterexample for claim C5 as stated: the type code 0x8137, which the
claim lists as IPX, is not in the dispatch table of ethernet.rs (only 0x8138
is), so the frame carrying it gets an InvalidData Type entry and the
Unknown-protocol label instead of the IPX symbol. -/
theorem claim_C5_counterexample :
    ethernetTL eth8137Frame = 0x8137
  ∧ ethernet.dissect eth8137Frame = .ok (.Object [
      ("Destination", .ok (.Bytes [1, 2, 3, 4, 5, 6])),
      ("Source", .ok (.Bytes [7, 8, 9, 10, 11, 12])),
      ("Type", .error (.InvalidData "unknown protocol: 8137")),
      ("Unknown protocol data", .ok (.Object [("raw data", .ok (.Bytes []))]))]) :=
  ⟨rfl, rfl⟩
